import Mathlib

/-!
Verification of the adaptive-communication and fleet-coordination core of the
UAV disaster-management repository.

Numbers are modelled as exact rationals (the JavaScript sources compute with
doubles; every constant appearing in the claims is exact).  Randomness
(`Math.random()`) is modelled by explicit parameters.  Stateful code
(the function-static hysteresis variables, the `connectedUAVs` map and
`currentMasterId` of the websocket handler) is modelled by explicit state
passing.
-/

namespace UAV

/-- JavaScript `Math.max` on rationals, written as a decidable conditional
so that concrete evaluations reduce in the kernel. -/
def maxQ (a b : ℚ) : ℚ := if a ≤ b then b else a

/-- JavaScript `Math.min` on rationals. -/
def minQ (a b : ℚ) : ℚ := if a ≤ b then a else b

/-- Clamp, mirroring the JavaScript idiom `Math.max(lo, Math.min(hi, x))`. -/
def clampQ (lo hi x : ℚ) : ℚ := maxQ lo (minQ hi x)

/-- The three ISAC communication modes of `determineISACMode.js`
(strings good / medium / weak in the source). -/
inductive ISACMode where
  | good
  | medium
  | weak
deriving DecidableEq, Repr

/-- Quality levels accepted by `calculateDataRate` (strings high / medium /
low in the source; `other` stands for any other string, handled by the
default branch of the switch). -/
inductive QualityLevel where
  | high
  | mediumQ
  | low
  | other
deriving DecidableEq, Repr

/-- `calculateDataRate(signalStrength, qualityLevel)` from
`determineISACMode.js`: pick (baseRate, efficiency) by quality level,
scale by `signalStrength / 100`, floor the result at 0.1 Mbps. -/
def calculateDataRate (signalStrength : ℚ) (qualityLevel : QualityLevel) : ℚ :=
  let baseRate : ℚ :=
    match qualityLevel with
    | .high => 50
    | .mediumQ => 20
    | .low => 5
    | .other => 1
  let efficiency : ℚ :=
    match qualityLevel with
    | .high => 9/10
    | .mediumQ => 7/10
    | .low => 1/2
    | .other => 3/10
  let signalFactor := signalStrength / 100
  maxQ (1/10) (baseRate * signalFactor * efficiency)

/-- The function-static state of `applyHysteresis` in `determineISACMode.js`
(`applyHysteresis.previousMode` and `applyHysteresis.modeSwitchTimer`).
Note that in the source this is one single state shared by every caller. -/
structure HystState where
  previousMode : ISACMode
  modeSwitchTimer : ℕ
deriving DecidableEq, Repr

/-- Result of one `applyHysteresis` call: the committed mode, the switched
flag, and the updated static state. -/
structure HystOut where
  mode : ISACMode
  switched : Bool
  state : HystState
deriving DecidableEq, Repr

/-- `applyHysteresis(currentMode, signalStrength)` from
`determineISACMode.js`, after the one-time static initialisation: if the
candidate differs from the previous mode the timer is incremented and the
previous mode is kept while `timer < 5`; at the fifth consecutive differing
tick the candidate is committed and the timer reset; a tick whose candidate
equals the previous mode resets the timer to zero. -/
def applyHysteresis (st : HystState) (currentMode : ISACMode) : HystOut :=
  if currentMode ≠ st.previousMode then
    let t := st.modeSwitchTimer + 1
    if t < 5 then
      { mode := st.previousMode, switched := false,
        state := { previousMode := st.previousMode, modeSwitchTimer := t } }
    else
      { mode := currentMode, switched := true,
        state := { previousMode := currentMode, modeSwitchTimer := 0 } }
  else
    { mode := currentMode, switched := false,
      state := { previousMode := st.previousMode, modeSwitchTimer := 0 } }

/-- Candidate mode from the thresholds of `determineISACMode.js`
(`signalStrength >= 75` is good, `>= 40` is medium, otherwise weak). -/
def candidateMode (signalStrength : ℚ) : ISACMode :=
  if 75 ≤ signalStrength then .good
  else if 40 ≤ signalStrength then .medium
  else .weak

/-- Quality level passed to `calculateDataRate` for each candidate branch of
`determineISACMode.js` (good uses high, medium uses medium, weak uses low). -/
def qualityFor : ISACMode → QualityLevel
  | .good => .high
  | .medium => .mediumQ
  | .weak => .low

/-- Per-tick output of the mode stage of `determineISACMode.js`
(committed mode, signal strength, data rate, switched flag). -/
structure ISACTick where
  isacMode : ISACMode
  signalStrength : ℚ
  dataRate : ℚ
  switched : Bool
deriving DecidableEq, Repr

/-- The mode-arbitration stage of `determineISACMode` from
`determineISACMode.js`, taking the already-computed signal strength and the
current hysteresis state (`none` models the not-yet-initialised static
state, which the source initialises to the first candidate with timer 0).
The candidate mode is classified from the thresholds, the data rate is
computed from the candidate quality level, and only then is hysteresis
applied; the returned `isacMode` is the hysteresis result while `dataRate`
keeps the candidate-based value. -/
def determineISACModeFromSignal (st : Option HystState) (signalStrength : ℚ) :
    ISACTick × HystState :=
  let cand := candidateMode signalStrength
  let dataRate := calculateDataRate signalStrength (qualityFor cand)
  let st0 := st.getD { previousMode := cand, modeSwitchTimer := 0 }
  let out := applyHysteresis st0 cand
  ({ isacMode := out.mode, signalStrength := signalStrength,
     dataRate := dataRate, switched := out.switched }, out.state)

/-- Run the arbiter over a list of signal strengths, threading the
function-static hysteresis state exactly as successive calls of
`determineISACMode` would. -/
def isacRun (st : Option HystState) : List ℚ → List ISACTick × Option HystState
  | [] => ([], st)
  | s :: rest =>
    let step := determineISACModeFromSignal st s
    let tail := isacRun (some step.2) rest
    (step.1 :: tail.1, tail.2)

/-- Committed-mode trace of a run started on the uninitialised static state. -/
def committedTrace (signals : List ℚ) : List ISACMode :=
  (isacRun none signals).1.map ISACTick.isacMode

/-- State reached by folding `applyHysteresis` over a candidate list. -/
def hystRunState (st : HystState) (l : List ISACMode) : HystState :=
  l.foldl (fun s c => (applyHysteresis s c).state) st

/-! ### Transmission filter (`simulateDataTransmission.js`) -/

/-- A survivor detection record, with the fields the filters of
`simulateDataTransmission.js` read, plus an opaque `metadata` field standing
for any further payload carried by the raw detection object. -/
structure Detection where
  detId : ℕ
  coordinates : ℚ × ℚ
  confidence : ℚ
  detType : String
  detTimestamp : ℕ
  metadata : String
deriving DecidableEq, Repr

/-- Detection reduced by `filterEssentialDetections` (medium mode): the
source keeps id, coordinates, confidence, type and timestamp. -/
structure EssentialDetection where
  detId : ℕ
  coordinates : ℚ × ℚ
  confidence : ℚ
  detType : String
  detTimestamp : ℕ
deriving DecidableEq, Repr

/-- Detection reduced by `filterHighConfidenceDetections` (weak mode): the
source keeps id, coordinates and confidence. -/
structure HighConfDetection where
  detId : ℕ
  coordinates : ℚ × ℚ
  confidence : ℚ
deriving DecidableEq, Repr

/-- Raw telemetry object; each field may be absent (undefined in JS). -/
structure Telemetry where
  position : Option (ℚ × ℚ × ℚ)
  batteryLevel : Option ℚ
  altitude : Option ℚ
  velocity : Option (ℚ × ℚ × ℚ)
deriving DecidableEq, Repr

/-- Telemetry reduced by `filterCriticalTelemetry` (medium mode): position,
battery level and altitude, each kept only when defined. -/
structure CriticalTelemetry where
  position : Option (ℚ × ℚ × ℚ)
  batteryLevel : Option ℚ
  altitude : Option ℚ
deriving DecidableEq, Repr

/-- Telemetry sent in weak mode: the source copies position and batteryLevel
fields directly (possibly undefined). -/
structure MinimalTelemetry where
  position : Option (ℚ × ℚ × ℚ)
  batteryLevel : Option ℚ
deriving DecidableEq, Repr

/-- A raw video frame descriptor (`sensorData.videoFrame`): byte content and
format, each possibly absent. -/
structure VideoFrame where
  data : Option (List ℕ)
  format : Option String
deriving DecidableEq, Repr

/-- Output of `compressVideoFrame`: the sliced byte data (`none` models the
placeholder string used when the frame has no data field), the compression
factor, sizes, quality and format. -/
structure CompressedFrame where
  data : Option (List ℕ)
  compressionFactor : ℚ
  originalSize : ℕ
  compressedSize : ℕ
  quality : String
  format : String
deriving DecidableEq, Repr

/-- The video stream component of a transmission package: the raw frame in
good mode, a compressed frame in medium mode. -/
inductive VideoStream where
  | raw (f : VideoFrame)
  | compressed (c : CompressedFrame)
deriving DecidableEq, Repr

/-- The detections component of a transmission package, one variant per
filtering regime of `simulateDataTransmission.js`. -/
inductive SentDetections where
  | full (l : List Detection)
  | essential (l : List EssentialDetection)
  | highConf (l : List HighConfDetection)
deriving DecidableEq, Repr

/-- The telemetry component of a transmission package. -/
inductive SentTelemetry where
  | full (t : Telemetry)
  | critical (t : CriticalTelemetry)
  | minimal (t : MinimalTelemetry)
deriving DecidableEq, Repr

/-- Raw sensor payload (`sensorData`): every component optional, model
updates and environmental data treated as opaque blobs. -/
structure SensorData where
  videoFrame : Option VideoFrame
  detections : Option (List Detection)
  detectionMetadata : Option String
  modelUpdates : Option String
  environmentalData : Option String
  telemetry : Option Telemetry
deriving DecidableEq, Repr

/-- The transmission package built by `simulateDataTransmission` (timestamp
strings omitted; they carry no information the claims mention). -/
structure TransmissionData where
  isacMode : String
  dataSizeBytes : ℕ
  compressionApplied : Bool
  estimatedTransmissionTime : ℚ
  videoStream : Option VideoStream
  videoQuality : Option String
  videoCompression : Option String
  detections : Option SentDetections
  detectionMetadata : Option String
  modelUpdates : Option String
  environmentalData : Option String
  telemetry : Option SentTelemetry
deriving DecidableEq, Repr

/-- `compressVideoFrame(videoFrame, compressionRate)`: slice the byte data to
`round(originalSize * rate)` bytes (fallback placeholder when no data). -/
def compressVideoFrame (videoFrame : VideoFrame) (rate : ℚ) : CompressedFrame :=
  let originalSize : ℕ := match videoFrame.data with
    | some d => d.length
    | none => 500000
  let compressedSize : ℕ := (⌊(originalSize : ℚ) * rate + 1/2⌋).toNat
  { data := videoFrame.data.map (fun d => d.take compressedSize),
    compressionFactor := rate,
    originalSize := originalSize,
    compressedSize := compressedSize,
    quality := "480p",
    format := videoFrame.format.getD "H264" }

/-- `filterEssentialDetections`: keep detections with confidence above 0.6
and project to the essential fields. -/
def filterEssentialDetections (detections : List Detection) :
    List EssentialDetection :=
  (detections.filter (fun d => (6:ℚ)/10 < d.confidence)).map
    (fun d => { detId := d.detId, coordinates := d.coordinates,
                confidence := d.confidence, detType := d.detType,
                detTimestamp := d.detTimestamp })

/-- `filterHighConfidenceDetections`: keep detections with confidence above
0.8 and project to id, coordinates and confidence. -/
def filterHighConfidenceDetections (detections : List Detection) :
    List HighConfDetection :=
  (detections.filter (fun d => (8:ℚ)/10 < d.confidence)).map
    (fun d => { detId := d.detId, coordinates := d.coordinates,
                confidence := d.confidence })

/-- `filterCriticalTelemetry`: keep position, batteryLevel and altitude when
defined. -/
def filterCriticalTelemetry (t : Telemetry) : CriticalTelemetry :=
  { position := t.position, batteryLevel := t.batteryLevel,
    altitude := t.altitude }

/-- The transmission package as initialised at the top of
`simulateDataTransmission` (before mode-specific processing); the
compression flag is a raw string comparison, not lower-cased. -/
def initTransmissionData (isacMode : String) : TransmissionData :=
  { isacMode := isacMode, dataSizeBytes := 0,
    compressionApplied := isacMode ≠ "good",
    estimatedTransmissionTime := 0,
    videoStream := none, videoQuality := none, videoCompression := none,
    detections := none, detectionMetadata := none, modelUpdates := none,
    environmentalData := none, telemetry := none }

/-- `processGoodModeData`: full video, all detections with metadata, model
updates, environmental data and full telemetry, with the byte accounting of
the source. -/
def processGoodModeData (sensorData : SensorData) (td : TransmissionData) :
    TransmissionData :=
  let td := match sensorData.videoFrame with
    | some f =>
      { td with videoStream := some (.raw f), videoQuality := some "1080p",
                videoCompression := some "none",
                dataSizeBytes := td.dataSizeBytes + 500000 }
    | none => td
  let td := match sensorData.detections with
    | some l =>
      { td with detections := some (.full l),
                detectionMetadata := sensorData.detectionMetadata,
                dataSizeBytes := td.dataSizeBytes + l.length * 200 }
    | none => td
  let td := match sensorData.modelUpdates with
    | some m =>
      { td with modelUpdates := some m,
                dataSizeBytes := td.dataSizeBytes + 50000 }
    | none => td
  let td := match sensorData.environmentalData with
    | some e =>
      { td with environmentalData := some e,
                dataSizeBytes := td.dataSizeBytes + 1000 }
    | none => td
  match sensorData.telemetry with
    | some t =>
      { td with telemetry := some (.full t),
                dataSizeBytes := td.dataSizeBytes + 500 }
    | none => td

/-- `processMediumModeData`: compressed video, essential detections, critical
telemetry, model updates explicitly nulled. -/
def processMediumModeData (sensorData : SensorData) (td : TransmissionData) :
    TransmissionData :=
  let td := match sensorData.videoFrame with
    | some f =>
      { td with videoStream := some (.compressed (compressVideoFrame f (3/10))),
                videoQuality := some "480p", videoCompression := some "high",
                dataSizeBytes := td.dataSizeBytes + 150000 }
    | none => td
  let td := match sensorData.detections with
    | some l =>
      let kept := filterEssentialDetections l
      { td with detections := some (.essential kept),
                dataSizeBytes := td.dataSizeBytes + kept.length * 100 }
    | none => td
  let td := match sensorData.telemetry with
    | some t =>
      { td with telemetry := some (.critical (filterCriticalTelemetry t)),
                dataSizeBytes := td.dataSizeBytes + 200 }
    | none => td
  { td with modelUpdates := none }

/-- `processWeakModeData`: video nulled, high-confidence detections only,
minimal telemetry, model updates and environmental data nulled. -/
def processWeakModeData (sensorData : SensorData) (td : TransmissionData) :
    TransmissionData :=
  let td := { td with videoStream := none, videoQuality := some "none" }
  let td := match sensorData.detections with
    | some l =>
      let kept := filterHighConfidenceDetections l
      { td with detections := some (.highConf kept),
                dataSizeBytes := td.dataSizeBytes + kept.length * 50 }
    | none => td
  let td := match sensorData.telemetry with
    | some t =>
      { td with telemetry := some (.minimal { position := t.position,
                                              batteryLevel := t.batteryLevel }),
                dataSizeBytes := td.dataSizeBytes + 100 }
    | none => td
  { td with modelUpdates := none, environmentalData := none }

/-- JavaScript `toLowerCase()` on the mode strings, written over the
character list so that concrete evaluations reduce in the kernel. -/
def jsToLower (s : String) : String := ⟨s.data.map Char.toLower⟩

/-- `estimateTransmissionTime(dataSizeBytes, isacMode)`: pick the data rate
in bytes per second by lower-cased mode (1 Mbps = 125000 B/s for an unknown
mode), divide and apply the 1.2 protocol-overhead factor. -/
def estimateTransmissionTime (dataSizeBytes : ℕ) (isacMode : String) : ℚ :=
  let dataRateBps : ℚ :=
    if jsToLower isacMode = "good" then 6250000
    else if jsToLower isacMode = "medium" then 2500000
    else if jsToLower isacMode = "weak" then 625000
    else 125000
  ((dataSizeBytes : ℚ) / dataRateBps) * (12/10)

/-- `simulateDataTransmission(sensorData, isacMode)`: dispatch on the
lower-cased mode string (any other string falls through to the weak-mode
processing), then fill in the estimated transmission time. -/
def simulateDataTransmission (sensorData : SensorData) (isacMode : String) :
    TransmissionData :=
  let td := initTransmissionData isacMode
  let td :=
    if jsToLower isacMode = "good" then processGoodModeData sensorData td
    else if jsToLower isacMode = "medium" then processMediumModeData sensorData td
    else if jsToLower isacMode = "weak" then processWeakModeData sensorData td
    else processWeakModeData sensorData td
  { td with estimatedTransmissionTime :=
      estimateTransmissionTime td.dataSizeBytes isacMode }

/-- The stream-availability table `getAvailableStreams(mode)` of
`isacService.js`. -/
structure AvailableStreams where
  video : Bool
  detections : Bool
  modelUpdates : Bool
deriving DecidableEq, Repr

/-- `getAvailableStreams` from `isacService.js`: switch on the lower-cased
mode, default to everything unavailable. -/
def getAvailableStreams (mode : String) : AvailableStreams :=
  if jsToLower mode = "good" then
    { video := true, detections := true, modelUpdates := true }
  else if jsToLower mode = "medium" then
    { video := true, detections := true, modelUpdates := false }
  else if jsToLower mode = "weak" then
    { video := false, detections := true, modelUpdates := false }
  else
    { video := false, detections := false, modelUpdates := false }

/-! ### Fleet registry and master election (`socketHandler.js`)

The websocket handler keeps a module-level `connectedUAVs` map (insertion
ordered, as a JavaScript `Map`) and a nullable `currentMasterId`.  We model
the map as an insertion-ordered association list and the handlers as pure
state transformers.  `socket.disconnect()` calls made inside a handler are
requests to the socket.io library: the corresponding `disconnect` event is
delivered as a separate later event (the handlers guard against stale
delivery by comparing socket ids), so they mutate no registry state within
the calling handler. -/

/-- JavaScript `x || d` for an optional numeric field: undefined and 0 are
both falsy and give the default. -/
def jsOrQ (x : Option ℚ) (d : ℚ) : ℚ :=
  match x with
  | none => d
  | some v => if v = 0 then d else v

/-- JavaScript `Math.round`: floor of x + 1/2 (the arguments in this model
are nonnegative scores, where this agrees with the JS semantics). -/
def jsRound (x : ℚ) : ℤ := ⌊x + 1/2⌋

/-- One entry of the `connectedUAVs` map.  The source stores the raw
position and computes the distance to the reference centre point
(22.5726, 88.3639) as `sqrt((x - lat)^2 + (y - lng)^2)` inside
`calculateUAVScore`; the model stores that derived distance directly
(`distanceToCenter`), which is the quantity the score, the spec and the
claims are parameterised by.  `signalStrength` is optional because no
handler of `socketHandler.js` ever writes it.  `connected` mirrors
`uav.socket.connected`. -/
structure UAVSession where
  socketId : ℕ
  connected : Bool
  distanceToCenter : ℚ
  battery : ℚ
  signalStrength : Option ℚ
  lastSeen : ℕ
deriving DecidableEq, Repr

/-- The module-level state of `socketHandler.js`: the `connectedUAVs` map in
insertion order plus `currentMasterId`. -/
structure FleetState where
  sessions : List (String × UAVSession)
  currentMasterId : Option String
deriving DecidableEq, Repr

/-- The empty fleet (module load time). -/
def FleetState.empty : FleetState := { sessions := [], currentMasterId := none }

/-- `connectedUAVs.get(id)` (first entry with the id). -/
def lookupSession (st : FleetState) (id : String) : Option UAVSession :=
  (st.sessions.find? (fun p => p.1 = id)).map Prod.snd

/-- `connectedUAVs.set(id, u)`: replace in place when present (a JS Map
keeps the original insertion position), otherwise append. -/
def setSession (l : List (String × UAVSession)) (id : String)
    (u : UAVSession) : List (String × UAVSession) :=
  if l.any (fun p => p.1 = id) then
    l.map (fun p => if p.1 = id then (id, u) else p)
  else
    l ++ [(id, u)]

/-- `connectedUAVs.delete(id)`. -/
def removeSession (l : List (String × UAVSession)) (id : String) :
    List (String × UAVSession) :=
  l.filter (fun p => p.1 ≠ id)

/-- `getConnectedUavIds()`: ids of entries whose socket is connected, in map
iteration order. -/
def connectedIds (st : FleetState) : List String :=
  (st.sessions.filter (fun p => p.2.connected)).map Prod.fst

/-- `calculateUAVScore` from `socketHandler.js`, in terms of the stored
signal strength, battery and distance to centre: apply the `|| 50` defaults,
invert the distance (a zero distance scores 1), clamp each term into [0,1],
take the weighted sum with weights (0.4, 0.3, 0.3) and round to two decimal
places. -/
def calculateUAVScore (snr battery : ℚ) (distance : ℚ) : ℚ :=
  let distanceScore := if 0 < distance then 1 / distance else 1
  let normalizedSNR := minQ 100 (maxQ 0 snr) / 100
  let normalizedBattery := minQ 100 (maxQ 0 battery) / 100
  let normalizedDistance := minQ 1 distanceScore
  let score := (4/10) * normalizedSNR + (3/10) * normalizedBattery +
               (3/10) * normalizedDistance
  (jsRound (score * 100) : ℚ) / 100

/-- Score of a stored session: `uav.signalStrength || 50` and
`uav.battery || 50` feed `calculateUAVScore`. -/
def scoreOfSession (u : UAVSession) : ℚ :=
  calculateUAVScore (jsOrQ u.signalStrength 50) (jsOrQ (some u.battery) 50)
    u.distanceToCenter

/-- Head of the stable descending sort used by `electNextMaster`: the first
element attaining the maximal score wins (ties keep iteration order). -/
def pickBest : List (String × ℚ) → Option (String × ℚ)
  | [] => none
  | p :: rest =>
    match pickBest rest with
    | none => some p
    | some q => if q.2 > p.2 then some q else some p

/-- Scores of all connected sessions, in iteration order. -/
def scoredConnected (st : FleetState) : List (String × ℚ) :=
  (st.sessions.filter (fun p => p.2.connected)).map
    (fun p => (p.1, scoreOfSession p.2))

/-- `electNextMaster` from `socketHandler.js`: when no UAV is connected the
master is cleared to null, otherwise the connected session with the highest
score (first in iteration order on ties) becomes `currentMasterId`. -/
def electNextMaster (st : FleetState) : FleetState :=
  match scoredConnected st with
  | [] => { st with currentMasterId := none }
  | scored => { st with currentMasterId := (pickBest scored).map Prod.fst }

/-- Input fields of a `register_uav` message used by the model (battery is
optional: `data.battery || 100`). -/
structure RegisterData where
  distanceToCenter : ℚ
  battery : Option ℚ
deriving DecidableEq, Repr

/-- The session object stored by the `register_uav` handler: connected, the
given socket, battery defaulted by `data.battery || 100`, signal strength
never written by the handler. -/
def freshSession (data : RegisterData) (sockId now : ℕ) : UAVSession :=
  { socketId := sockId, connected := true,
    distanceToCenter := data.distanceToCenter,
    battery := jsOrQ data.battery 100,
    signalStrength := none, lastSeen := now }

/-- The `register_uav` handler: insert or replace the session (an existing
live session only receives an external `socket.disconnect()` request, which
arrives as a later event), then elect a first master if none exists. -/
def registerUAV (st : FleetState) (id : String) (data : RegisterData)
    (sockId now : ℕ) : FleetState :=
  let st1 : FleetState :=
    ⟨setSession st.sessions id (freshSession data sockId now),
     st.currentMasterId⟩
  if st.currentMasterId = none then electNextMaster st1 else st1

/-- Input fields of a `uav_status` heartbeat used by the model. -/
structure StatusData where
  distanceToCenter : Option ℚ
  battery : Option ℚ
deriving DecidableEq, Repr

/-- The `uav_status` handler: when the id is known, update position-derived
distance (`data.position || uav.position`), battery
(`data.battery !== undefined` check) and `lastSeen`, then elect a master if
none exists; unknown ids are a no-op. -/
def heartbeatUAV (st : FleetState) (id : String) (data : StatusData)
    (now : ℕ) : FleetState :=
  match lookupSession st id with
  | none => st
  | some u =>
    let u1 : UAVSession :=
      { u with distanceToCenter := data.distanceToCenter.getD u.distanceToCenter,
               battery := data.battery.getD u.battery,
               lastSeen := now }
    let st1 : FleetState := ⟨setSession st.sessions id u1, st.currentMasterId⟩
    if st.currentMasterId = none then electNextMaster st1 else st1

/-- The periodic cleanup sweep (`cleanupInterval`): delete every session not
seen for more than 30000 ms.  The source emits a disconnect notification per
removed session but never calls `electNextMaster` here; `currentMasterId` is
left untouched. -/
def sweepUAVs (st : FleetState) (now : ℕ) : FleetState :=
  { st with sessions := st.sessions.filter (fun p => ¬ 30000 < now - p.2.lastSeen) }

/-- The `disconnect` handler for the connection that registered `id` with
socket `sockId`: remove the session only when the stored socket is the same
one, and re-elect a master in the same step when the removed session was the
master. -/
def disconnectUAV (st : FleetState) (id : String) (sockId : ℕ) : FleetState :=
  match lookupSession st id with
  | none => st
  | some u =>
    if u.socketId = sockId then
      let st1 : FleetState := ⟨removeSession st.sessions id, st.currentMasterId⟩
      if st.currentMasterId = some id then electNextMaster st1 else st1
    else st

/-- The periodic master-rotation timer: re-run the election. -/
def rotateMaster (st : FleetState) : FleetState := electNextMaster st

/-- Events processed by the single-threaded coordinator of
`socketHandler.js`. -/
inductive FleetEvent where
  | register (id : String) (data : RegisterData) (sockId now : ℕ)
  | heartbeat (id : String) (data : StatusData) (now : ℕ)
  | sweep (now : ℕ)
  | disconnect (id : String) (sockId : ℕ)
  | rotate
deriving DecidableEq, Repr

/-- Apply one event. -/
def applyEvent (st : FleetState) : FleetEvent → FleetState
  | .register id data sockId now => registerUAV st id data sockId now
  | .heartbeat id data now => heartbeatUAV st id data now
  | .sweep now => sweepUAVs st now
  | .disconnect id sockId => disconnectUAV st id sockId
  | .rotate => rotateMaster st

/-- Run a trace of events from the empty fleet. -/
def runFleet (evs : List FleetEvent) : FleetState :=
  evs.foldl applyEvent FleetState.empty

/-- The FleetState invariant of the spec: `currentMasterId` is null or the
id of a currently connected session. -/
def MasterConnected (st : FleetState) : Prop :=
  ∀ m, st.currentMasterId = some m → m ∈ connectedIds st

/-- No two entries of the session table share an id (always true of a
JavaScript `Map`, which the association list models). -/
def KeysNodup (l : List (String × UAVSession)) : Prop :=
  (l.map Prod.fst).Nodup

/-! ### Link-quality estimation (`calculatePathLoss.js` and the signal part
of `determineISACMode.js`) -/

/-- Squared 3D distance between the UAV and the base station, as computed at
the top of `determineISACMode` (`dx*dx + dy*dy` plus the squared altitude).
The source takes `distance3d = Math.sqrt` of this value and passes it
directly to `calculatePathLoss` with no minimum-distance floor; since the
square root vanishes exactly on the zero of this rational expression,
`distance3dSq u b = 0` states precisely that `calculatePathLoss` receives
distance 0 (and hence that `Math.log10` is applied to 0). -/
def distance3dSq (uavPosition : ℚ × ℚ × ℚ) (baseStationPos : ℚ × ℚ) : ℚ :=
  let dx := uavPosition.1 - baseStationPos.1
  let dy := uavPosition.2.1 - baseStationPos.2
  let altitude := uavPosition.2.2
  dx * dx + dy * dy + altitude * altitude

/-- The clamp `simulateFading` applies to its raw random draw before
returning (`Math.max(-10, Math.min(20, fadingDb))`). -/
def simulateFadingClamp (rawFadingDb : ℚ) : ℚ := clampQ (-10) 20 rawFadingDb

/-- `calculatePathLoss(distanceM, environment)` from `calculatePathLoss.js`,
parameterised by the values of its five summands: the free-space term
(which contains the `Math.log10` applications to the distance and the
frequency), the environmental loss, the terrain loss, the weather loss
(random draws feed the first of these) and the fading value returned by
`simulateFading`.  The total is clamped into [40, 150] dB. -/
def calculatePathLoss (fsplDb environmentalLoss terrainLoss weatherLoss
    fadingDb : ℚ) : ℚ :=
  clampQ 40 150 (fsplDb + environmentalLoss + terrainLoss + weatherLoss + fadingDb)

/-- The SNR-to-percentage mapping of `determineISACMode`: received power is
txPower 20 dBm + antenna gain 3 dB - path loss, SNR subtracts the -90 dBm
noise floor, and the percentage `50 + (snr / 30) * 50` is clamped into
[0, 100]. -/
def snrToSignal (pathLossDb : ℚ) : ℚ :=
  clampQ 0 100 (50 + ((20 + 3 - pathLossDb - (-90)) / 30) * 50)

/-- The final signal strength of `determineISACMode`: the clamped percentage
plus the random variation `5 * (r - 0.5)` for a draw r of `Math.random()`,
re-clamped into [0, 100]. -/
def signalWithJitter (pathLossDb r : ℚ) : ℚ :=
  clampQ 0 100 (snrToSignal pathLossDb + 5 * (r - 1/2))

/-! ### Shared hysteresis state observed from two UAVs

`applyHysteresis` keeps its state on the function object, so in the source
every UAV processed by the same process shares one dwell timer.  The
following run interleaves ticks of two UAVs (tagged `true` for UAV A,
`false` for UAV B) through that single state, exactly as successive
`determineISACMode` calls for different UAVs would. -/

/-- Process interleaved ticks of several UAVs through the single shared
hysteresis state. -/
def sharedIsacRun (st : Option HystState) :
    List (Bool × ℚ) → List (Bool × ISACTick)
  | [] => []
  | (tag, s) :: rest =>
    let step := determineISACModeFromSignal st s
    (tag, step.1) :: sharedIsacRun (some step.2) rest

/-- Committed-mode trace observed by the UAV with the given tag. -/
def traceOf (tag : Bool) (l : List (Bool × ISACTick)) : List ISACMode :=
  (l.filter (fun p => p.1 = tag)).map (fun p => p.2.isacMode)

/-! ### Reference definitions written from the words of the spec

These are deliberately written from the specification text, not from the
source, to be compared against the embedded source functions. -/

/-- Clamp into [0, 1], as the spec words "each normalized input clamped to
[0,1] before weighting". -/
def specClamp01 (x : ℚ) : ℚ := minQ 1 (maxQ 0 x)

/-- The election score exactly as the claim words it:
`w1·clamp01(signal/100) + w2·clamp01(battery/100) + w3·min(1, 1/distanceToCenter)`
with weights (0.4, 0.3, 0.3) and no rounding. -/
def specScore (snr battery distance : ℚ) : ℚ :=
  (4/10) * specClamp01 (snr / 100) + (3/10) * specClamp01 (battery / 100) +
  (3/10) * minQ 1 (1 / distance)

/-- Base rate per committed mode as the claim words it. -/
def specModeBase : ISACMode → ℚ
  | .good => 50
  | .medium => 20
  | .weak => 5

/-- Efficiency per committed mode as the claim words it. -/
def specModeEff : ISACMode → ℚ
  | .good => 9/10
  | .medium => 7/10
  | .weak => 1/2

/-- The data rate exactly as the claim words it:
`base × (signalStrength/100) × efficiency` for the given mode, floored at
0.1. -/
def specModeDataRate (m : ISACMode) (s : ℚ) : ℚ :=
  maxQ (1/10) (specModeBase m * (s / 100) * specModeEff m)

/-! ### Concrete scenario fixtures -/

/-- Session of the first scenario UAV: signal 90, battery 95, distance to
centre 0.001. -/
def sessionU1 : UAVSession :=
  { socketId := 1, connected := true, distanceToCenter := 1/1000,
    battery := 95, signalStrength := some 90, lastSeen := 0 }

/-- Session of the second scenario UAV: signal 60, battery 70, distance to
centre 0.01. -/
def sessionU2 : UAVSession :=
  { socketId := 2, connected := true, distanceToCenter := 1/100,
    battery := 70, signalStrength := some 60, lastSeen := 0 }

/-- Session of the third scenario UAV: signal 30, battery 40, distance to
centre 0.02. -/
def sessionU3 : UAVSession :=
  { socketId := 3, connected := true, distanceToCenter := 1/50,
    battery := 40, signalStrength := some 30, lastSeen := 0 }

/-- The three-UAV fleet of the master-election scenario, no master yet. -/
def fleet3 : FleetState :=
  { sessions := [("uav-1", sessionU1), ("uav-2", sessionU2), ("uav-3", sessionU3)],
    currentMasterId := none }

/-- Trace exhibiting the sweep gap: one UAV registers at time 0 (and becomes
master), then the periodic cleanup sweep fires at time 40000, past the
30-second liveness window. -/
def sweepTrace : List FleetEvent :=
  [.register "A" { distanceToCenter := 1, battery := some 80 } 7 0,
   .sweep 40000]

/-- Detection with confidence 0.9 used by the weak-mode scenario. -/
def det1 : Detection :=
  { detId := 1, coordinates := (1, 2), confidence := 9/10,
    detType := "person", detTimestamp := 11, metadata := "thermal" }

/-- Detection with confidence 0.85 used by the weak-mode scenario. -/
def det2 : Detection :=
  { detId := 2, coordinates := (3, 4), confidence := 17/20,
    detType := "person", detTimestamp := 12, metadata := "visual" }

/-- Detection with confidence 0.5 used by the weak-mode scenario. -/
def det3 : Detection :=
  { detId := 3, coordinates := (5, 6), confidence := 1/2,
    detType := "person", detTimestamp := 13, metadata := "infrared" }

/-- A detection identical to `det1` in coordinates and confidence but with a
different id (and different residual metadata). -/
def det1Alt : Detection :=
  { detId := 42, coordinates := (1, 2), confidence := 9/10,
    detType := "animal", detTimestamp := 99, metadata := "radar" }

/-- Sensor payload of the weak-mode scenario: the three detections and
nothing else. -/
def sensorDataC7 : SensorData :=
  { videoFrame := none, detections := some [det1, det2, det3],
    detectionMetadata := none, modelUpdates := none,
    environmentalData := none, telemetry := none }

/-- An interleaved schedule for two UAVs sharing the hysteresis state: UAV A
(tag true) ticks once at signal 80, UAV B (tag false) ticks four times at
signal 50, then A ticks at signal 50. -/
def interleavedSchedule : List (Bool × ℚ) :=
  [(true, 80), (false, 50), (false, 50), (false, 50), (false, 50), (true, 50)]

/-- The signal sequence of the dwell scenario. -/
def dwellSignals : List ℚ := [80, 80, 80, 80, 80, 50, 50, 50, 50, 50, 50]

/-- Registration data used by the single-UAV fleet fixture. -/
def regDataA : RegisterData := { distanceToCenter := 1, battery := some 80 }

/-- Fleet reached by registering UAV A alone (A becomes master). -/
def fleetA : FleetState :=
  runFleet [.register "A" regDataA 7 0]

/-! ## Theorems -/

/-- Membership in a take is monotone in the length taken. -/
theorem mem_take_of_le {α : Type} {x : α} :
    ∀ (l : List α) {m n : ℕ}, m ≤ n → x ∈ l.take m → x ∈ l.take n := by
  intro l
  induction l with
  | nil => intro m n _ hx; simp at hx
  | cons a t ih =>
    intro m n hmn hx
    cases m with
    | zero => simp at hx
    | succ m =>
      cases n with
      | zero => omega
      | succ n =>
        simp only [List.take_succ_cons, List.mem_cons] at hx ⊢
        rcases hx with h | h
        · exact Or.inl h
        · exact Or.inr (ih (by omega) h)

/-- A switch is reported only when the candidate differs from the previous
mode and the dwell timer has already counted at least 4 earlier ticks. -/
theorem applyHysteresis_switched_true {st : HystState} {c : ISACMode}
    (h : (applyHysteresis st c).switched = true) :
    c ≠ st.previousMode ∧ 4 ≤ st.modeSwitchTimer := by
  by_cases h1 : c = st.previousMode
  · simp [applyHysteresis, h1] at h
  · by_cases h2 : st.modeSwitchTimer + 1 < 5
    · simp [applyHysteresis, h1, h2] at h
    · exact ⟨h1, by omega⟩

/-- Folding one more candidate into the hysteresis state. -/
theorem hystRunState_append (st : HystState) (l : List ISACMode) (c : ISACMode) :
    hystRunState st (l ++ [c]) = (applyHysteresis (hystRunState st l) c).state := by
  simp [hystRunState, List.foldl_append]

/-- Trail invariant of the dwell timer: starting from a zeroed timer, after
any candidate list the timer never exceeds the number of ticks seen, and the
last `timer` candidates all differ from the mode currently held. -/
theorem hystRunState_trail (st₀ : HystState) (h0 : st₀.modeSwitchTimer = 0)
    (l : List ISACMode) :
    (hystRunState st₀ l).modeSwitchTimer ≤ l.length ∧
    ∀ d ∈ l.reverse.take (hystRunState st₀ l).modeSwitchTimer,
      d ≠ (hystRunState st₀ l).previousMode := by
  induction l using List.reverseRecOn with
  | nil => simp [hystRunState, h0]
  | append_singleton l c ih =>
    rw [hystRunState_append]
    by_cases h1 : c = (hystRunState st₀ l).previousMode
    · have hstep : (applyHysteresis (hystRunState st₀ l) c).state =
          { previousMode := (hystRunState st₀ l).previousMode,
            modeSwitchTimer := 0 } := by
        simp [applyHysteresis, h1]
      rw [hstep]
      exact ⟨by simp, by simp⟩
    · by_cases h2 : (hystRunState st₀ l).modeSwitchTimer + 1 < 5
      · have hstep : (applyHysteresis (hystRunState st₀ l) c).state =
            { previousMode := (hystRunState st₀ l).previousMode,
              modeSwitchTimer := (hystRunState st₀ l).modeSwitchTimer + 1 } := by
          simp [applyHysteresis, h1, h2]
        rw [hstep]
        refine ⟨by simpa using Nat.succ_le_succ ih.1, ?_⟩
        intro d hd
        simp only [List.reverse_append, List.reverse_cons, List.reverse_nil,
          List.nil_append, List.cons_append, List.take_succ_cons,
          List.mem_cons] at hd
        rcases hd with rfl | hd
        · exact h1
        · exact ih.2 d hd
      · have hstep : (applyHysteresis (hystRunState st₀ l) c).state =
            { previousMode := c, modeSwitchTimer := 0 } := by
          simp [applyHysteresis, h1, h2]
        rw [hstep]
        exact ⟨by simp, by simp⟩

/-- C3: the arbiter commits a candidate mode different from the committed
mode only after the dwell threshold of 5 consecutive differing ticks (the
switching tick plus at least 4 immediately preceding ticks whose candidates
all differ from the held mode), a tick whose candidate equals the committed
mode resets the dwell counter to zero, and on the signal sequence
[80,80,80,80,80,50,50,50,50,50,50] with thresholds good at 75 and medium at
40 the committed mode is GOOD for ticks 1 through 9 and MEDIUM from tick
10. -/
theorem C3_dwell_threshold :
    (∀ (st : HystState) (c : ISACMode), c = st.previousMode →
      (applyHysteresis st c).state.modeSwitchTimer = 0) ∧
    (∀ (st₀ : HystState), st₀.modeSwitchTimer = 0 →
      ∀ (l : List ISACMode) (c : ISACMode),
        (applyHysteresis (hystRunState st₀ l) c).switched = true →
        c ≠ (hystRunState st₀ l).previousMode ∧
        4 ≤ (hystRunState st₀ l).modeSwitchTimer ∧
        ∀ d ∈ l.reverse.take 4, d ≠ (hystRunState st₀ l).previousMode) ∧
    committedTrace dwellSignals =
      [.good, .good, .good, .good, .good, .good, .good, .good, .good,
       .medium, .medium] := by
  refine ⟨?_, ?_, by decide⟩
  · intro st c hc
    simp [applyHysteresis, hc]
  · intro st₀ h0 l c hsw
    obtain ⟨hne, ht⟩ := applyHysteresis_switched_true hsw
    obtain ⟨-, htrail⟩ := hystRunState_trail st₀ h0 l
    exact ⟨hne, ht, fun d hd => htrail d (mem_take_of_le _ ht hd)⟩

/-- Witness for C3: the reset clause applied at a state holding GOOD with
timer 3, and the dwell clause applied at the state reached after four
MEDIUM candidates from GOOD, where a fifth MEDIUM candidate switches. -/
theorem C3_dwell_threshold_witness :
    (applyHysteresis { previousMode := .good, modeSwitchTimer := 3 }
        ISACMode.good).state.modeSwitchTimer = 0 ∧
    (ISACMode.medium ≠
        (hystRunState { previousMode := .good, modeSwitchTimer := 0 }
          [.medium, .medium, .medium, .medium]).previousMode ∧
      4 ≤ (hystRunState { previousMode := .good, modeSwitchTimer := 0 }
          [.medium, .medium, .medium, .medium]).modeSwitchTimer ∧
      ∀ d ∈ ([ISACMode.medium, .medium, .medium, .medium]).reverse.take 4,
        d ≠ (hystRunState { previousMode := .good, modeSwitchTimer := 0 }
          [.medium, .medium, .medium, .medium]).previousMode) :=
  ⟨C3_dwell_threshold.1 _ ISACMode.good rfl,
   C3_dwell_threshold.2.1 { previousMode := .good, modeSwitchTimer := 0 } rfl
     [.medium, .medium, .medium, .medium] .medium (by decide)⟩

/-- C2 (code bug): the dwell timer is one function-static variable shared by
every UAV, so interleaving ticks of UAV B between the ticks of UAV A changes
the committed modes A observes.  With A ticking at signals 80 then 50, A
alone commits GOOD on both ticks (one differing tick is far below the dwell
threshold), but with four of B ticks at signal 50 interleaved the shared
timer reaches the threshold and A second tick commits MEDIUM. -/
theorem C2_shared_dwell_interference :
    traceOf true (sharedIsacRun none interleavedSchedule) = [.good, .medium] ∧
    (isacRun none [80, 50]).1.map ISACTick.isacMode = [.good, .good] ∧
    traceOf true (sharedIsacRun none interleavedSchedule) ≠
      (isacRun none [80, 50]).1.map ISACTick.isacMode := by
  refine ⟨by decide, by decide, by decide⟩

/-- Counterexample to C5: on the tick after five GOOD ticks at signal 80, a
signal of 50 keeps the committed mode GOOD (hysteresis), yet the emitted
data rate is 7 Mbps, the MEDIUM-candidate rate; the committed-mode formula
of the claim would give 50 × 0.5 × 0.9 = 22.5 Mbps. -/
theorem C5_counterexample :
    (isacRun none [80, 80, 80, 80, 80, 50]).1.getLast? =
      some { isacMode := .good, signalStrength := 50, dataRate := 7,
             switched := false } ∧
    specModeDataRate .good 50 = 45/2 ∧
    (7 : ℚ) ≠ specModeDataRate .good 50 := by
  refine ⟨?_, ?_, ?_⟩
  · norm_num [isacRun, determineISACModeFromSignal, candidateMode, qualityFor,
      applyHysteresis, calculateDataRate, maxQ]
    decide
  · norm_num [specModeDataRate, specModeBase, specModeEff, maxQ]
  · norm_num [specModeDataRate, specModeBase, specModeEff, maxQ]

/-- C5 (amended): on every tick the emitted data rate equals
base × (signalStrength/100) × efficiency floored at 0.1, computed from the
CANDIDATE mode of that tick signal — (50, 0.9) for GOOD, (20, 0.7) for
MEDIUM, (5, 0.5) for WEAK — not from the committed mode; on ticks where
hysteresis holds the committed mode away from the candidate, the rate
follows the candidate. -/
theorem C5_data_rate_amended :
    ∀ (st : Option HystState) (s : ℚ),
      (determineISACModeFromSignal st s).1.dataRate =
        specModeDataRate (candidateMode s) s := by
  intro st s
  show calculateDataRate s (qualityFor (candidateMode s)) =
    specModeDataRate (candidateMode s) s
  cases h : candidateMode s <;>
    simp [calculateDataRate, specModeDataRate, qualityFor, specModeBase,
      specModeEff]

/-- Weak-mode processing never carries a video stream. -/
theorem processWeakModeData_videoStream (sd : SensorData) (td : TransmissionData) :
    (processWeakModeData sd td).videoStream = none := by
  unfold processWeakModeData
  rcases hd : sd.detections with - | l <;> rcases ht : sd.telemetry with - | t <;> rfl

/-- Weak-mode processing always nulls the model updates. -/
theorem processWeakModeData_modelUpdates (sd : SensorData) (td : TransmissionData) :
    (processWeakModeData sd td).modelUpdates = none := rfl

/-- Weak-mode processing always nulls the environmental data. -/
theorem processWeakModeData_environmentalData (sd : SensorData)
    (td : TransmissionData) :
    (processWeakModeData sd td).environmentalData = none := rfl

/-- Medium-mode processing always nulls the model updates. -/
theorem processMediumModeData_modelUpdates (sd : SensorData)
    (td : TransmissionData) :
    (processMediumModeData sd td).modelUpdates = none := rfl

/-- C4: for every raw sensor payload and every committed mode string, the
transmission package contains no video stream when the mode is WEAK
(case-insensitively) and no model updates when the mode is not GOOD; the
stream-availability table of the backend ISAC service agrees. -/
theorem C4_mode_conditioned_filtering (sd : SensorData) (m : String) :
    (jsToLower m = "weak" → (simulateDataTransmission sd m).videoStream = none) ∧
    (jsToLower m ≠ "good" → (simulateDataTransmission sd m).modelUpdates = none) ∧
    (jsToLower m = "weak" → (getAvailableStreams m).video = false) ∧
    (jsToLower m ≠ "good" → (getAvailableStreams m).modelUpdates = false) := by
  refine ⟨?_, ?_, ?_, ?_⟩
  · intro h
    simp only [simulateDataTransmission, h, if_true]
    exact processWeakModeData_videoStream sd _
  · intro h
    simp only [simulateDataTransmission]
    rw [if_neg h]
    by_cases h2 : jsToLower m = "medium"
    · rw [if_pos h2]
      exact processMediumModeData_modelUpdates sd _
    · rw [if_neg h2]
      by_cases h3 : jsToLower m = "weak"
      · rw [if_pos h3]
        exact processWeakModeData_modelUpdates sd _
      · rw [if_neg h3]
        exact processWeakModeData_modelUpdates sd _
  · intro h
    simp only [getAvailableStreams, h]
    rw [if_neg (by decide : ¬("weak":String) = "good"),
      if_neg (by decide : ¬("weak":String) = "medium")]
    simp
  · intro h
    simp only [getAvailableStreams]
    rw [if_neg h]
    by_cases h2 : jsToLower m = "medium"
    · rw [if_pos h2]
    · rw [if_neg h2]
      by_cases h3 : jsToLower m = "weak"
      · rw [if_pos h3]
      · rw [if_neg h3]

/-- Witness for C4: the filtering clauses applied to a fully-populated
sensor payload at the upper-case mode strings WEAK and MEDIUM. -/
theorem C4_mode_conditioned_filtering_witness :
    ((simulateDataTransmission
        { videoFrame := some { data := none, format := none },
          detections := some [], detectionMetadata := some "meta",
          modelUpdates := some "weights", environmentalData := some "env",
          telemetry := none } "WEAK").videoStream = none) ∧
    ((simulateDataTransmission
        { videoFrame := some { data := none, format := none },
          detections := some [], detectionMetadata := some "meta",
          modelUpdates := some "weights", environmentalData := some "env",
          telemetry := none } "MEDIUM").modelUpdates = none) ∧
    (getAvailableStreams "WEAK").video = false ∧
    (getAvailableStreams "MEDIUM").modelUpdates = false :=
  ⟨(C4_mode_conditioned_filtering _ "WEAK").1 (by decide),
   (C4_mode_conditioned_filtering _ "MEDIUM").2.1 (by decide),
   (C4_mode_conditioned_filtering
      { videoFrame := none, detections := none, detectionMetadata := none,
        modelUpdates := none, environmentalData := none,
        telemetry := none } "WEAK").2.2.1 (by decide),
   (C4_mode_conditioned_filtering
      { videoFrame := none, detections := none, detectionMetadata := none,
        modelUpdates := none, environmentalData := none,
        telemetry := none } "MEDIUM").2.2.2 (by decide)⟩

/-- C10: for a mode string outside good/medium/weak (case-insensitively) the
transmission simulation is total and falls through to the weak-mode
processing (no video, no model updates, no environmental data, the
high-confidence detection filter) while the transmission-time estimate uses
the 1 Mbps (125000 bytes per second) default rate. -/
theorem C10_unknown_mode_fallback (sd : SensorData) (m : String)
    (h1 : jsToLower m ≠ "good") (h2 : jsToLower m ≠ "medium")
    (h3 : jsToLower m ≠ "weak") :
    simulateDataTransmission sd m =
      { processWeakModeData sd (initTransmissionData m) with
        estimatedTransmissionTime :=
          (((processWeakModeData sd (initTransmissionData m)).dataSizeBytes : ℚ) /
            125000) * (12/10) } ∧
    (simulateDataTransmission sd m).videoStream = none ∧
    (simulateDataTransmission sd m).modelUpdates = none := by
  have hmain : simulateDataTransmission sd m =
      { processWeakModeData sd (initTransmissionData m) with
        estimatedTransmissionTime :=
          (((processWeakModeData sd (initTransmissionData m)).dataSizeBytes : ℚ) /
            125000) * (12/10) } := by
    simp only [simulateDataTransmission, estimateTransmissionTime]
    rw [if_neg h1, if_neg h2, if_neg h3, if_neg h1, if_neg h2, if_neg h3]
  refine ⟨hmain, ?_, ?_⟩
  · rw [hmain]
    exact processWeakModeData_videoStream sd (initTransmissionData m)
  · rw [hmain]
    exact processWeakModeData_modelUpdates sd (initTransmissionData m)

/-- Witness for C10: the fallback applied to the concrete payload of the
weak-mode scenario with the unknown mode string BOGUS. -/
theorem C10_unknown_mode_fallback_witness :
    simulateDataTransmission sensorDataC7 "BOGUS" =
      { processWeakModeData sensorDataC7 (initTransmissionData "BOGUS") with
        estimatedTransmissionTime :=
          (((processWeakModeData sensorDataC7
              (initTransmissionData "BOGUS")).dataSizeBytes : ℚ) / 125000) *
            (12/10) } ∧
    (simulateDataTransmission sensorDataC7 "BOGUS").videoStream = none ∧
    (simulateDataTransmission sensorDataC7 "BOGUS").modelUpdates = none :=
  C10_unknown_mode_fallback sensorDataC7 "BOGUS" (by decide) (by decide)
    (by decide)

/-- Counterexample to C7: the weak-mode reduction is not "coordinates and
confidence only" — it also keeps the detection id, so two detections that
agree on coordinates and confidence but differ in id produce different
packages. -/
theorem C7_counterexample :
    det1.coordinates = det1Alt.coordinates ∧
    det1.confidence = det1Alt.confidence ∧
    filterHighConfidenceDetections [det1] ≠
      filterHighConfidenceDetections [det1Alt] := by
  refine ⟨rfl, rfl, ?_⟩
  norm_num [filterHighConfidenceDetections, det1, det1Alt, List.filter]

/-- C7 (amended): the WEAK-mode package for the detection list with
confidences [0.9, 0.85, 0.5] contains exactly the two detections with
confidence above 0.8, each reduced to id, coordinates and confidence (type,
timestamp and further metadata stripped); in general every detection above
the 0.8 threshold appears in that reduced form and every entry of the
package arises from such a detection. -/
theorem C7_weak_package_amended :
    ((simulateDataTransmission sensorDataC7 "weak").detections =
      some (.highConf
        [{ detId := 1, coordinates := (1, 2), confidence := 9/10 },
         { detId := 2, coordinates := (3, 4), confidence := 17/20 }])) ∧
    (∀ (dets : List Detection) (d : Detection), d ∈ dets →
      (8:ℚ)/10 < d.confidence →
      ({ detId := d.detId, coordinates := d.coordinates,
         confidence := d.confidence } : HighConfDetection) ∈
        filterHighConfidenceDetections dets) ∧
    (∀ (dets : List Detection) (hc : HighConfDetection),
      hc ∈ filterHighConfidenceDetections dets →
      ∃ d ∈ dets, (8:ℚ)/10 < d.confidence ∧
        hc = { detId := d.detId, coordinates := d.coordinates,
               confidence := d.confidence }) := by
  refine ⟨?_, ?_, ?_⟩
  · simp only [simulateDataTransmission]
    rw [if_neg (by decide : ¬ jsToLower "weak" = "good"),
      if_neg (by decide : ¬ jsToLower "weak" = "medium"),
      if_pos (by decide : jsToLower "weak" = "weak")]
    show (processWeakModeData sensorDataC7 _).detections = _
    norm_num [processWeakModeData, sensorDataC7, filterHighConfidenceDetections,
      det1, det2, det3, List.filter]
  · intro dets d hd hconf
    unfold filterHighConfidenceDetections
    exact List.mem_map.2 ⟨d, List.mem_filter.2 ⟨hd, by simpa using hconf⟩, rfl⟩
  · intro dets hc hhc
    unfold filterHighConfidenceDetections at hhc
    obtain ⟨d, hd, rfl⟩ := List.mem_map.1 hhc
    exact ⟨d, (List.mem_filter.1 hd).1,
      by simpa using (List.mem_filter.1 hd).2, rfl⟩

/-- Witness for C7 (amended): both general clauses applied to the scenario
list at the detection with confidence 0.9. -/
theorem C7_weak_package_amended_witness :
    (({ detId := 1, coordinates := (1, 2), confidence := 9/10 } :
        HighConfDetection) ∈
      filterHighConfidenceDetections [det1, det2, det3]) ∧
    (∃ d ∈ [det1, det2, det3], (8:ℚ)/10 < d.confidence ∧
      ({ detId := 1, coordinates := (1, 2), confidence := 9/10 } :
        HighConfDetection) =
        { detId := d.detId, coordinates := d.coordinates,
          confidence := d.confidence }) :=
  ⟨C7_weak_package_amended.2.1 [det1, det2, det3] det1 (by simp)
      (by norm_num [det1]),
   C7_weak_package_amended.2.2 [det1, det2, det3] _
     (C7_weak_package_amended.2.1 [det1, det2, det3] det1 (by simp)
       (by norm_num [det1]))⟩

/-- Counterexample to C9: there is no minimum-distance floor — a UAV sitting
exactly at the base station at altitude zero yields a squared 3D distance of
0, so `calculatePathLoss` receives distance 0 and `Math.log10` is applied
to 0. -/
theorem C9_counterexample : distance3dSq (0, 0, 0) (0, 0) = 0 := by
  norm_num [distance3dSq]

/-- Lower clamp bound. -/
theorem le_maxQ_left (a b : ℚ) : a ≤ maxQ a b := by
  unfold maxQ
  split_ifs with h
  · exact h
  · exact le_refl a

/-- Upper bound for maxQ. -/
theorem maxQ_le_of_le {a b c : ℚ} (h1 : a ≤ c) (h2 : b ≤ c) : maxQ a b ≤ c := by
  unfold maxQ
  split_ifs <;> assumption

/-- Left bound for minQ. -/
theorem minQ_le_left (a b : ℚ) : minQ a b ≤ a := by
  unfold minQ
  split_ifs with h
  · exact le_refl a
  · exact le_of_not_le h

/-- The stable-sort head is an element of the scored list. -/
theorem pickBest_mem : ∀ {l : List (String × ℚ)} {p : String × ℚ},
    pickBest l = some p → p ∈ l := by
  intro l
  induction l with
  | nil => intro p h; simp [pickBest] at h
  | cons q rest ih =>
    intro p h
    cases hr : pickBest rest with
    | none =>
      simp only [pickBest, hr] at h
      simp at h
      rw [← h]
      exact List.mem_cons_self q rest
    | some q2 =>
      simp only [pickBest, hr] at h
      by_cases hgt : q2.2 > q.2
      · rw [if_pos hgt] at h
        simp at h
        exact List.mem_cons_of_mem q (h ▸ ih hr)
      · rw [if_neg hgt] at h
        simp at h
        rw [← h]
        exact List.mem_cons_self q rest

/-- The election never touches the session table. -/
theorem electNextMaster_sessions (st : FleetState) :
    (electNextMaster st).sessions = st.sessions := by
  rcases h : scoredConnected st with - | ⟨a, l⟩ <;> simp [electNextMaster, h]

/-- The election never changes which ids are connected. -/
theorem connectedIds_elect (st : FleetState) :
    connectedIds (electNextMaster st) = connectedIds st := by
  unfold connectedIds
  rw [electNextMaster_sessions]

/-- A master produced by the election is one of the connected ids. -/
theorem electNextMaster_master_mem {st : FleetState} {m : String}
    (h : (electNextMaster st).currentMasterId = some m) :
    m ∈ connectedIds st := by
  rcases hs : scoredConnected st with - | ⟨a, l⟩
  · simp [electNextMaster, hs] at h
  · simp only [electNextMaster, hs] at h
    obtain ⟨p, hp, hfst⟩ := Option.map_eq_some'.1 h
    have hmem : p ∈ scoredConnected st := by
      rw [hs]
      exact pickBest_mem hp
    unfold scoredConnected at hmem
    obtain ⟨q, hq, hqe⟩ := List.mem_map.1 hmem
    unfold connectedIds
    refine List.mem_map.2 ⟨q, hq, ?_⟩
    rw [← hfst, ← hqe]

/-- A connected id stays connected when a connected session is set. -/
theorem mem_connectedIds_set {l : List (String × UAVSession)}
    {mc mc2 : Option String} {id m : String} {u : UAVSession}
    (hu : u.connected = true)
    (hm : m ∈ connectedIds ⟨l, mc⟩) :
    m ∈ connectedIds ⟨setSession l id u, mc2⟩ := by
  unfold connectedIds at hm ⊢
  obtain ⟨p, hp, rfl⟩ := List.mem_map.1 hm
  obtain ⟨hpl, hpc⟩ := List.mem_filter.1 hp
  unfold setSession
  by_cases hany : l.any (fun p => p.1 = id)
  · rw [if_pos hany]
    by_cases hid : p.1 = id
    · exact List.mem_map.2 ⟨(id, u),
        List.mem_filter.2 ⟨List.mem_map.2 ⟨p, hpl, by simp [hid]⟩, by simp [hu]⟩,
        by simp [hid]⟩
    · exact List.mem_map.2 ⟨p,
        List.mem_filter.2 ⟨List.mem_map.2 ⟨p, hpl, by simp [hid]⟩, hpc⟩, rfl⟩
  · rw [if_neg hany]
    exact List.mem_map.2 ⟨p,
      List.mem_filter.2 ⟨List.mem_append.2 (Or.inl hpl), hpc⟩, rfl⟩

/-- A connected id different from the set id stays connected regardless of
the connectivity of the newly set session. -/
theorem mem_connectedIds_set_of_ne {l : List (String × UAVSession)}
    {mc mc2 : Option String} {id m : String} {u : UAVSession}
    (hne : m ≠ id)
    (hm : m ∈ connectedIds ⟨l, mc⟩) :
    m ∈ connectedIds ⟨setSession l id u, mc2⟩ := by
  unfold connectedIds at hm ⊢
  obtain ⟨p, hp, rfl⟩ := List.mem_map.1 hm
  obtain ⟨hpl, hpc⟩ := List.mem_filter.1 hp
  unfold setSession
  by_cases hany : l.any (fun p => p.1 = id)
  · rw [if_pos hany]
    exact List.mem_map.2 ⟨p,
      List.mem_filter.2 ⟨List.mem_map.2 ⟨p, hpl, by simp [hne]⟩, hpc⟩, rfl⟩
  · rw [if_neg hany]
    exact List.mem_map.2 ⟨p,
      List.mem_filter.2 ⟨List.mem_append.2 (Or.inl hpl), hpc⟩, rfl⟩

/-- A connected id of the table with an id removed is not the removed id. -/
theorem mem_connectedIds_remove_ne {l : List (String × UAVSession)}
    {mc : Option String} {id m : String}
    (h : m ∈ connectedIds ⟨removeSession l id, mc⟩) : m ≠ id := by
  unfold connectedIds removeSession at h
  obtain ⟨p, hp, rfl⟩ := List.mem_map.1 h
  have h2 := (List.mem_filter.1 (List.mem_filter.1 hp).1).2
  simpa using h2

/-- Removal keeps every other connected id connected. -/
theorem mem_connectedIds_remove_of_ne {l : List (String × UAVSession)}
    {mc mc2 : Option String} {id m : String} (hne : m ≠ id)
    (hm : m ∈ connectedIds ⟨l, mc⟩) :
    m ∈ connectedIds ⟨removeSession l id, mc2⟩ := by
  unfold connectedIds at hm ⊢
  obtain ⟨p, hp, rfl⟩ := List.mem_map.1 hm
  obtain ⟨hpl, hpc⟩ := List.mem_filter.1 hp
  unfold removeSession
  exact List.mem_map.2 ⟨p,
    List.mem_filter.2 ⟨List.mem_filter.2 ⟨hpl, by simpa using hne⟩, hpc⟩, rfl⟩

/-- A found session is one of the entries of the table. -/
theorem lookupSession_mem {st : FleetState} {id : String} {u : UAVSession}
    (h : lookupSession st id = some u) :
    ∃ p ∈ st.sessions, p.1 = id ∧ p.2 = u := by
  unfold lookupSession at h
  cases hf : st.sessions.find? (fun p => p.1 = id) with
  | none => rw [hf] at h; simp at h
  | some q =>
    rw [hf] at h
    simp at h
    exact ⟨q, List.mem_of_find?_eq_some hf,
      by simpa using List.find?_some hf, h⟩

/-- Looking up the id just set yields the session just set. -/
theorem find?_replaceSession {id : String} {u : UAVSession} :
    ∀ (l : List (String × UAVSession)), l.any (fun p => p.1 = id) →
    (l.map (fun p => if p.1 = id then (id, u) else p)).find?
      (fun p => p.1 = id) = some (id, u) := by
  intro l
  induction l with
  | nil => intro h; simp at h
  | cons a t ih =>
    intro h
    by_cases ha : a.1 = id
    · simp only [List.map_cons, if_pos ha]
      rw [List.find?_cons_of_pos _ (by simp)]
    · simp only [List.map_cons, if_neg ha]
      rw [List.find?_cons_of_neg _ (by simpa using ha)]
      refine ih ?_
      simp only [List.any_cons] at h
      rcases Bool.or_eq_true_iff.1 h with h1 | h2
      · exact absurd (by simpa using h1) ha
      · exact h2

/-- Looking up the id just set yields the session just set. -/
theorem lookup_setSession (l : List (String × UAVSession)) (id : String)
    (u : UAVSession) :
    ((setSession l id u).find? (fun p => p.1 = id)).map Prod.snd = some u := by
  unfold setSession
  by_cases hany : l.any (fun p => p.1 = id)
  · rw [if_pos hany, find?_replaceSession l hany]
    rfl
  · rw [if_neg hany]
    rw [List.find?_append]
    have h2 : ∀ (x : UAVSession), (id, x) ∉ l := by
      simpa using hany
    have hnone : l.find? (fun p => p.1 = id) = none := by
      rw [List.find?_eq_none]
      rintro ⟨x1, x2⟩ hx
      simp only [decide_eq_true_eq]
      intro hxid
      subst hxid
      exact h2 x2 hx
    rw [hnone]
    simp

/-- Looking up a removed id yields nothing. -/
theorem lookup_removeSession (l : List (String × UAVSession)) (id : String) :
    ((removeSession l id).find? (fun p => p.1 = id)).map Prod.snd = none := by
  unfold removeSession
  have hnone : (l.filter (fun p => p.1 ≠ id)).find? (fun p => p.1 = id) = none := by
    rw [List.find?_eq_none]
    intro x hx
    have := (List.mem_filter.1 hx).2
    simpa using this
  rw [hnone]
  rfl

/-- Registration preserves the master-connected invariant. -/
theorem registerUAV_preserves {st : FleetState} (id : String)
    (data : RegisterData) (sockId now : ℕ) (h : MasterConnected st) :
    MasterConnected (registerUAV st id data sockId now) := by
  intro m
  simp only [registerUAV]
  by_cases hmc : st.currentMasterId = none
  · rw [if_pos hmc]
    intro hm
    rw [connectedIds_elect]
    exact electNextMaster_master_mem hm
  · rw [if_neg hmc]
    intro hm
    have hm2 : st.currentMasterId = some m := hm
    exact mem_connectedIds_set rfl (h m hm2)

/-- A heartbeat preserves the master-connected invariant (on tables without
duplicate ids, which is every table a JavaScript `Map` can hold). -/
theorem heartbeatUAV_preserves {st : FleetState} (id : String)
    (data : StatusData) (now : ℕ) (hnd : KeysNodup st.sessions)
    (h : MasterConnected st) :
    MasterConnected (heartbeatUAV st id data now) := by
  intro m
  simp only [heartbeatUAV]
  cases hl : lookupSession st id with
  | none => intro hm; exact h m hm
  | some u =>
    dsimp only
    by_cases hmc : st.currentMasterId = none
    · rw [if_pos hmc]
      intro hm
      rw [connectedIds_elect]
      exact electNextMaster_master_mem hm
    · rw [if_neg hmc]
      intro hm
      have hm2 : st.currentMasterId = some m := hm
      have hmem := h m hm2
      by_cases hmid : m = id
      · subst hmid
        obtain ⟨q, hq, hqid, hqu⟩ := lookupSession_mem hl
        obtain ⟨p, hp, hpfst⟩ := List.mem_map.1 hmem
        obtain ⟨hpl, hpc⟩ := List.mem_filter.1 hp
        have hpq : p = q :=
          List.inj_on_of_nodup_map hnd hpl hq (hpfst.trans hqid.symm)
        have huc : u.connected = true := by
          rw [← hqu, ← hpq]
          simpa using hpc
        exact mem_connectedIds_set huc hmem
      · exact mem_connectedIds_set_of_ne hmid hmem

/-- An explicit disconnect preserves the master-connected invariant. -/
theorem disconnectUAV_preserves {st : FleetState} (id : String) (sockId : ℕ)
    (h : MasterConnected st) :
    MasterConnected (disconnectUAV st id sockId) := by
  intro m
  simp only [disconnectUAV]
  cases hl : lookupSession st id with
  | none => intro hm; exact h m hm
  | some u =>
    dsimp only
    by_cases hsid : u.socketId = sockId
    · rw [if_pos hsid]
      by_cases hmid : st.currentMasterId = some id
      · rw [if_pos hmid]
        intro hm
        rw [connectedIds_elect]
        exact electNextMaster_master_mem hm
      · rw [if_neg hmid]
        intro hm
        have hm2 : st.currentMasterId = some m := hm
        have hne : m ≠ id := by
          rintro rfl
          exact hmid hm2
        exact mem_connectedIds_remove_of_ne hne (h m hm2)
    · rw [if_neg hsid]
      intro hm
      exact h m hm

/-- A rotation-timer election establishes the master-connected invariant
unconditionally. -/
theorem rotateMaster_preserves (st : FleetState) :
    MasterConnected (rotateMaster st) := by
  intro m hm
  rw [rotateMaster] at hm
  rw [rotateMaster, connectedIds_elect]
  exact electNextMaster_master_mem hm

/-- When the disconnect of the current master actually removes its session,
the re-election run in the same step leaves a different master (or none). -/
theorem disconnectUAV_master_ne {st : FleetState} {id : String}
    {sockId : ℕ} {u : UAVSession} (hl : lookupSession st id = some u)
    (hsid : u.socketId = sockId) (hm : st.currentMasterId = some id) :
    (disconnectUAV st id sockId).currentMasterId ≠ some id := by
  simp only [disconnectUAV, hl]
  rw [if_pos hsid, if_pos hm]
  intro hcon
  exact (mem_connectedIds_remove_ne (electNextMaster_master_mem hcon)) rfl

/-- Counterexample to C1: the claimed invariant fails across the liveness
sweep.  Register UAV A at time 0 (A becomes master), then fire the cleanup
sweep at time 40000: A is deleted for missing the 30-second window, but the
sweep handler never re-elects, so `currentMasterId` still names A while no
session is connected. -/
theorem C1_counterexample :
    (runFleet sweepTrace).currentMasterId = some "A" ∧
    connectedIds (runFleet sweepTrace) = [] ∧
    ¬ MasterConnected (runFleet sweepTrace) := by
  refine ⟨by decide, by decide, ?_⟩
  intro hMC
  have h2 := hMC "A" (by decide)
  revert h2
  decide

/-- C1 (amended): registration, heartbeats, explicit disconnects and the
rotation timer all preserve the invariant that `currentMasterId` is null or
a connected id (heartbeats on tables without duplicate ids), and the
explicit disconnect of the current master re-elects within the same
handling step, leaving a different connected id or null; the liveness sweep,
however, removes sessions without re-electing, so the invariant can be
broken by a sweep that removes the master (see the counterexample). -/
theorem C1_master_invariant_amended :
    (∀ (st : FleetState) (id : String) (data : RegisterData) (sockId now : ℕ),
      MasterConnected st → MasterConnected (registerUAV st id data sockId now)) ∧
    (∀ (st : FleetState) (id : String) (data : StatusData) (now : ℕ),
      KeysNodup st.sessions → MasterConnected st →
      MasterConnected (heartbeatUAV st id data now)) ∧
    (∀ (st : FleetState) (id : String) (sockId : ℕ),
      MasterConnected st → MasterConnected (disconnectUAV st id sockId)) ∧
    (∀ st : FleetState, MasterConnected (rotateMaster st)) ∧
    (∀ (st : FleetState) (id : String) (sockId : ℕ) (u : UAVSession),
      lookupSession st id = some u → u.socketId = sockId →
      st.currentMasterId = some id →
      (disconnectUAV st id sockId).currentMasterId ≠ some id) :=
  ⟨fun _ id data sockId now h => registerUAV_preserves id data sockId now h,
   fun _ id data now hnd h => heartbeatUAV_preserves id data now hnd h,
   fun _ id sockId h => disconnectUAV_preserves id sockId h,
   rotateMaster_preserves,
   fun _ _ _ _ hl hsid hm => disconnectUAV_master_ne hl hsid hm⟩

/-- Witness for C1 (amended): every clause applied to the concrete one-UAV
fleet where A is master. -/
theorem C1_master_invariant_amended_witness :
    MasterConnected (registerUAV fleetA "B" regDataA 8 5) ∧
    MasterConnected (heartbeatUAV fleetA "A"
      { distanceToCenter := none, battery := some 50 } 9) ∧
    MasterConnected (disconnectUAV fleetA "A" 7) ∧
    MasterConnected (rotateMaster fleetA) ∧
    (disconnectUAV fleetA "A" 7).currentMasterId ≠ some "A" := by
  have hmc : MasterConnected fleetA := by
    intro m hm
    have h1 : fleetA.currentMasterId = some "A" := by decide
    rw [h1] at hm
    injection hm with h2
    subst h2
    decide
  exact ⟨C1_master_invariant_amended.1 fleetA "B" regDataA 8 5 hmc,
    C1_master_invariant_amended.2.1 fleetA "A"
      { distanceToCenter := none, battery := some 50 } 9
      (show (fleetA.sessions.map Prod.fst).Nodup by decide) hmc,
    C1_master_invariant_amended.2.2.1 fleetA "A" 7 hmc,
    C1_master_invariant_amended.2.2.2.1 fleetA,
    C1_master_invariant_amended.2.2.2.2 fleetA "A" 7
      (freshSession regDataA 7 0) (by decide) rfl (by decide)⟩

/-- C8: registering an id and then disconnecting that same connection leaves
no entry for the id in the registry, and the master afterwards is never that
id — if it was the master, the same-step re-election moved the master to a
different connected id or to null. -/
theorem C8_register_remove_roundtrip (st : FleetState) (id : String)
    (data : RegisterData) (sockId now : ℕ) :
    lookupSession
      (disconnectUAV (registerUAV st id data sockId now) id sockId) id =
      none ∧
    (disconnectUAV (registerUAV st id data sockId now) id
      sockId).currentMasterId ≠ some id := by
  set st1 := registerUAV st id data sockId now with hst1
  have hsess : st1.sessions =
      setSession st.sessions id (freshSession data sockId now) := by
    rw [hst1]
    simp only [registerUAV]
    by_cases hmc : st.currentMasterId = none
    · rw [if_pos hmc, electNextMaster_sessions]
    · rw [if_neg hmc]
  have hlook : lookupSession st1 id = some (freshSession data sockId now) := by
    unfold lookupSession
    rw [hsess]
    exact lookup_setSession _ _ _
  simp only [disconnectUAV, hlook]
  rw [if_pos (show (freshSession data sockId now).socketId = sockId from rfl)]
  by_cases hmid : st1.currentMasterId = some id
  · rw [if_pos hmid]
    constructor
    · unfold lookupSession
      rw [electNextMaster_sessions]
      exact lookup_removeSession _ _
    · intro hcon
      exact (mem_connectedIds_remove_ne (electNextMaster_master_mem hcon)) rfl
  · rw [if_neg hmid]
    exact ⟨lookup_removeSession _ _, fun hcon => hmid hcon⟩

/-- The decidable-conditional maximum agrees with the lattice maximum. -/
theorem maxQ_eq (a b : ℚ) : maxQ a b = max a b := by
  unfold maxQ
  by_cases h : a ≤ b
  · rw [if_pos h, max_eq_right h]
  · rw [if_neg h, max_eq_left (le_of_not_le h)]

/-- The decidable-conditional minimum agrees with the lattice minimum. -/
theorem minQ_eq (a b : ℚ) : minQ a b = min a b := by
  unfold minQ
  by_cases h : a ≤ b
  · rw [if_pos h, min_eq_left h]
  · rw [if_neg h, min_eq_right (le_of_not_le h)]

/-- Clamping into [0, 100] and dividing by 100 is clamping the quotient into
[0, 1]. -/
theorem clampDiv100 (x : ℚ) :
    minQ 100 (maxQ 0 x) / 100 = minQ 1 (maxQ 0 (x / 100)) := by
  rw [minQ_eq, maxQ_eq, minQ_eq, maxQ_eq]
  rw [← min_div_div_right (by norm_num : (0:ℚ) ≤ 100) 100 (max 0 x)]
  rw [← max_div_div_right (by norm_num : (0:ℚ) ≤ 100) 0 x]
  norm_num

/-- Counterexample to C6: the stored election score is rounded to two
decimal places (`Math.round(score * 100) / 100`), so for UAV 1 of the
concrete scenario the code yields 0.95 while the unrounded formula of the
claim yields 0.945. -/
theorem C6_score_counterexample :
    calculateUAVScore 90 95 (1/1000) = 19/20 ∧
    specScore 90 95 (1/1000) = 189/200 ∧
    calculateUAVScore 90 95 (1/1000) ≠ specScore 90 95 (1/1000) := by
  refine ⟨?_, ?_, ?_⟩ <;>
    norm_num [calculateUAVScore, specScore, specClamp01, jsRound, minQ, maxQ]

/-- C6 (amended): for positive distance, every session election score equals
the claim formula w1·clamp01(signal/100) + w2·clamp01(battery/100) +
w3·min(1, 1/distanceToCenter) with weights (0.4, 0.3, 0.3), rounded to two
decimal places; and in the concrete three-UAV scenario with (signal,
battery, distance) = (90,95,0.001), (60,70,0.01), (30,40,0.02), UAV 1 is
elected master. -/
theorem C6_election_amended :
    (∀ (snr battery d : ℚ), 0 < d →
      calculateUAVScore snr battery d =
        (jsRound (specScore snr battery d * 100) : ℚ) / 100) ∧
    (electNextMaster fleet3).currentMasterId = some "uav-1" := by
  constructor
  · intro snr battery d hd
    simp only [calculateUAVScore, specScore, specClamp01]
    rw [if_pos hd, clampDiv100, clampDiv100]
  · norm_num [electNextMaster, fleet3, scoredConnected, pickBest, sessionU1,
      sessionU2, sessionU3, scoreOfSession, calculateUAVScore, jsOrQ, jsRound,
      minQ, maxQ, connectedIds]

/-- Witness for C6 (amended): the rounded-formula equation applied at the
concrete scores of scenario UAV 1. -/
theorem C6_election_amended_witness :
    (0:ℚ) < 1/1000 ∧
    calculateUAVScore 90 95 (1/1000) =
      (jsRound (specScore 90 95 (1/1000) * 100) : ℚ) / 100 :=
  ⟨by norm_num, C6_election_amended.1 90 95 (1/1000) (by norm_num)⟩

/-- C9 (amended): the source has no minimum-distance floor (zero distance
reaches the logarithm, whose JavaScript value -Infinity is then absorbed by
the [40,150] dB clamp), but the returned signal-strength percentage always
lies in [0, 100]: for every value of the five path-loss summands and every
random jitter draw, the SNR mapping, clamp, jitter and re-clamp keep the
result in range. -/
theorem C9_signal_bounds_amended :
    ∀ (fsplDb environmentalLoss terrainLoss weatherLoss fadingDb r : ℚ),
      0 ≤ signalWithJitter
          (calculatePathLoss fsplDb environmentalLoss terrainLoss weatherLoss
            fadingDb) r ∧
      signalWithJitter
          (calculatePathLoss fsplDb environmentalLoss terrainLoss weatherLoss
            fadingDb) r ≤ 100 := by
  intro fsplDb environmentalLoss terrainLoss weatherLoss fadingDb r
  unfold signalWithJitter clampQ
  constructor
  · exact le_maxQ_left 0 _
  · exact maxQ_le_of_le (by norm_num) (minQ_le_left 100 _)

end UAV
